import Mathlib

/-!
Verification of the core event-classification and signal-detection logic of
the wallet-tracking engine.

The definitions below are a shallow embedding of the Python source:

* `classify` embeds the balance-change classification inlined in
  `SolanaTracker.check_wallet` (src/tracker/sol_tracker.py, lines 151-280):
  the SOL-delta branch, the dust filters, the partition into gained/lost
  token lists and the BUY/SELL/SWAP/TRANSFER branch cascade.
* `process_sig` embeds the per-signature ingestion step of `check_wallet`
  (hash-exists check, insert, engine invocations).
* `detect_reload`, `check_reload_resolution`, `resolve_stale_reloads` embed
  `PredictiveEngine` (src/analysis/predictive_engine.py).
* `detect_cluster_buy` and `calculate_cluster_confidence` embed
  `CabalDetector` (src/analysis/cabal_detector.py).
* `analyze_token_activity` embeds
  `ContrarianEngine.analyze_token_activity` (src/analysis/contrarian_engine.py).
* `track_copiers_for_trade` embeds
  `AlphaDecayTracker.track_copiers_for_trade` (src/analysis/alpha_decay.py).

Python floats are modelled as rationals (`Rat`); the claims under scrutiny
concern comparisons and branch structure, not rounding.  Wall-clock
datetimes are modelled as natural-number second counts on the processing
clock; on-chain block times are separate fields.  Database queries over the
`transactions`, `funding_links`, `reload_events` and `moments` tables are
modelled as list traversals over explicit list-valued states.
-/

/-- A per-mint token balance change of the monitored wallet, as produced by
the pre/post token-balance diff in `check_wallet`: the resolved (cleaned)
symbol, the mint address, and `diff = post_amt - pre_amt`. -/
structure TokenChange where
  symbol : String
  mint : String
  diff : Rat
deriving Repr, DecidableEq

/-- Dust threshold for the native SOL delta (`abs(sol_diff) > 0.001`). -/
def SOL_DUST : Rat := mkRat 1 1000

/-- Dust threshold for token deltas (`abs(diff) > 0.000001`). -/
def TOKEN_DUST : Rat := mkRat 1 1000000

/-- The recognized stable or pegged symbols of `check_wallet`:
`stables = SOL, USDC, USDT, wSOL, WSOL, USDC.e, USDCet`. -/
def stables : List String := ["SOL", "USDC", "USDT", "wSOL", "WSOL", "USDC.e", "USDCet"]

/-- The `tokens_gained` list of `check_wallet`: above-dust positive token
deltas, in post-token-balance iteration order, as (symbol, mint, diff). -/
def tokens_gained (cs : List TokenChange) : List (String × String × Rat) :=
  cs.filterMap fun c =>
    if TOKEN_DUST < |c.diff| ∧ 0 < c.diff then some (c.symbol, c.mint, c.diff) else none

/-- The `tokens_lost` list of `check_wallet`: above-dust negative token
deltas, in post-token-balance iteration order, as (symbol, mint, abs diff). -/
def tokens_lost (cs : List TokenChange) : List (String × String × Rat) :=
  cs.filterMap fun c =>
    if TOKEN_DUST < |c.diff| ∧ ¬ 0 < c.diff then some (c.symbol, c.mint, |c.diff|) else none

/-- The `gained_stables` sublist computed in the both-sides branch. -/
def gained_stables (cs : List TokenChange) : List (String × String × Rat) :=
  (tokens_gained cs).filter fun t => stables.contains t.1

/-- The `gained_tokens` sublist (non-stable gained assets); the pure-buy
branch recomputes the same list under the local name `non_stables`. -/
def gained_tokens (cs : List TokenChange) : List (String × String × Rat) :=
  (tokens_gained cs).filter fun t => !stables.contains t.1

/-- The `lost_stables` sublist computed in the both-sides branch. -/
def lost_stables (cs : List TokenChange) : List (String × String × Rat) :=
  (tokens_lost cs).filter fun t => stables.contains t.1

/-- The `lost_tokens` sublist (non-stable lost assets); the pure-sell and
edge-case branches recompute the same list under the local name
`non_stables`. -/
def lost_tokens (cs : List TokenChange) : List (String × String × Rat) :=
  (tokens_lost cs).filter fun t => !stables.contains t.1

/-- The classification outcome of one transaction: the DB fields
`db_tx_type`, `db_amount`, `db_symbol`, `db_token_addr` of `check_wallet`. -/
structure Classified where
  tx_type : String
  amount : Rat
  symbol : Option String
  token_addr : Option String
deriving Repr, DecidableEq

/-- The balance-change classification of `check_wallet`
(src/tracker/sol_tracker.py lines 146-280), as a pure function of the
wallet's SOL delta and its per-mint token changes.  The initial state
mirrors the SOL branch (above-dust SOL delta defaults the record to a
TRANSFER of SOL, else UNKNOWN); the branch cascade mirrors lines 223-280,
including that the pure-buy and pure-sell branches assign the type before
the non-stable guard. -/
def classify (sol_diff : Rat) (cs : List TokenChange) : Classified :=
  let init : Classified :=
    if SOL_DUST < |sol_diff| then ⟨"TRANSFER", |sol_diff|, some "SOL", none⟩
    else ⟨"UNKNOWN", 0, none, none⟩
  if tokens_lost cs ≠ [] ∧ tokens_gained cs ≠ [] then
    if lost_tokens cs ≠ [] ∧ (gained_stables cs ≠ [] ∨ SOL_DUST < sol_diff) then
      let t := (lost_tokens cs).headI
      ⟨"SELL", t.2.2, some t.1, some t.2.1⟩
    else if gained_tokens cs ≠ [] ∧ (lost_stables cs ≠ [] ∨ sol_diff < -SOL_DUST) then
      let t := (gained_tokens cs).headI
      ⟨"BUY", t.2.2, some t.1, some t.2.1⟩
    else if lost_tokens cs ≠ [] ∧ gained_tokens cs ≠ [] then
      let t := (gained_tokens cs).headI
      ⟨"SWAP", t.2.2, some t.1, some t.2.1⟩
    else init
  else if tokens_gained cs ≠ [] ∧ tokens_lost cs = [] ∧ sol_diff < -SOL_DUST then
    if gained_tokens cs ≠ [] then
      let t := (gained_tokens cs).headI
      ⟨"BUY", t.2.2, some t.1, some t.2.1⟩
    else
      { init with tx_type := "BUY" }
  else if tokens_lost cs ≠ [] ∧ tokens_gained cs = [] ∧ SOL_DUST < sol_diff then
    if lost_tokens cs ≠ [] then
      let t := (lost_tokens cs).headI
      ⟨"SELL", t.2.2, some t.1, some t.2.1⟩
    else
      { init with tx_type := "SELL" }
  else if tokens_lost cs ≠ [] ∧ tokens_gained cs = [] then
    if lost_tokens cs ≠ [] then
      let t := (lost_tokens cs).headI
      ⟨"SELL", t.2.2, some t.1, some t.2.1⟩
    else init
  else init

/-- The spec-side selection rule (spec section 4.1 step 4): from a list of
(symbol, mint, amount) candidates, the one with the largest absolute
amount; used only to compare the specified rule against the source. -/
def largest_abs_asset : List (String × String × Rat) → Option (String × String × Rat)
  | [] => none
  | t :: ts => some (ts.foldl (fun a b => if |a.2.2| < |b.2.2| then b else a) t)

/-- A raw Solana transaction as consumed by the ingestion loop: the
signature (transaction hash), the wallet's SOL delta, its token changes,
and the on-chain block time. -/
structure RawTx where
  tx_hash : String
  sol_diff : Rat
  token_changes : List TokenChange
  block_time : Nat
deriving Repr, DecidableEq

/-- A persisted row of the `transactions` table, as inserted by
`check_wallet`. -/
structure StoredEvent where
  wallet_id : Nat
  tx_hash : String
  tx_type : String
  symbol : Option String
  amount : Rat
  timestamp : Nat
deriving Repr, DecidableEq

/-- The ingestion-relevant state threaded through `check_wallet`: the
stored events, plus counters for the profile updates
(`Profiler.update_wallet_stats`, called once per processed transaction via
`PatternEngine.analyze_behavior`) and for detector-engine invocations
(predictive, cabal, contrarian, pattern). -/
structure IngestState where
  events : List StoredEvent
  profile_updates : Nat
  detector_calls : Nat
deriving Repr, DecidableEq

/-- One iteration of the per-signature loop of `check_wallet`: if a
transaction with the same hash already exists the signature is skipped
entirely (`continue`); otherwise the transaction is classified, inserted,
and the engines are invoked per its classified type. -/
def process_sig (wallet_id : Nat) (s : IngestState) (tx : RawTx) : IngestState :=
  if s.events.any (fun e => e.tx_hash == tx.tx_hash) then s
  else
    let c := classify tx.sol_diff tx.token_changes
    let ev : StoredEvent := ⟨wallet_id, tx.tx_hash, c.tx_type, c.symbol, c.amount, tx.block_time⟩
    let engines :=
      (if c.tx_type = "TRANSFER" ∧ c.symbol = some "SOL" ∧ 0 < tx.sol_diff then 1 else 0)
      + (if c.tx_type = "BUY" ∨ c.tx_type = "SWAP" then 3 else 0)
      + (if c.tx_type = "SELL" then 1 else 0)
    { events := s.events ++ [ev]
    , profile_updates := s.profile_updates + 1
    , detector_calls := s.detector_calls + engines + 1 }

/-- Repeated ingestion of the same raw transaction, n times. -/
def process_sig_iter (wallet_id : Nat) (tx : RawTx) : Nat → IngestState → IngestState
  | 0, s => s
  | n + 1, s => process_sig_iter wallet_id tx n (process_sig wallet_id s tx)

/-- Number of stored events carrying a given transaction hash. -/
def hash_count (s : IngestState) (h : String) : Nat :=
  (s.events.filter (fun e => e.tx_hash == h)).length

/-- A row of the `reload_events` table (src/db via
`PredictiveEngine.detect_reload`).  `detected_at` and `resolved_at` are
processing-clock second counts (`datetime.utcnow()`); `followed_by_buy`
is the nullable resolution flag. -/
structure Reload where
  wallet_id : Nat
  tx_hash : String
  amount : Rat
  source_address : Option String
  detected_at : Nat
  followed_by_buy : Option Bool
  time_to_buy_minutes : Option Nat
  buy_tx_hash : Option String
  resolved_at : Option Nat
deriving Repr, DecidableEq

/-- A chain transaction as seen by the predictive engine: only its hash is
read; the on-chain block time is carried but never consulted. -/
structure ChainTx where
  tx_hash : String
  block_time : Nat
deriving Repr, DecidableEq

/-- Minimum incoming SOL for a reload (`MIN_RELOAD_SOL = 5.0`). -/
def MIN_RELOAD_SOL : Rat := 5

/-- The reload resolution window (`PREDICTION_WINDOW_MINUTES = 120`). -/
def PREDICTION_WINDOW_MINUTES : Nat := 120

/-- `PredictiveEngine.detect_reload`: below-threshold inflows are ignored;
an already-tracked hash is ignored; otherwise a new unresolved ReloadEvent
is appended with `detected_at` taken from the processing clock `now`. -/
def detect_reload (now : Nat) (wallet_id : Nat) (tx : ChainTx) (sol_change : Rat)
    (source_address : Option String) (rs : List Reload) : List Reload :=
  if sol_change < MIN_RELOAD_SOL then rs
  else if rs.any (fun r => r.tx_hash == tx.tx_hash) then rs
  else rs ++ [⟨wallet_id, tx.tx_hash, sol_change, source_address, now, none, none, none, none⟩]

/-- `PredictiveEngine.check_reload_resolution`: every unresolved reload of
the wallet detected within the trailing 120-minute window is marked
followed-by-buy, recording whole elapsed processing-clock minutes and the
buy transaction hash. -/
def check_reload_resolution (now : Nat) (wallet_id : Nat) (buy : ChainTx)
    (rs : List Reload) : List Reload :=
  let cutoff := now - PREDICTION_WINDOW_MINUTES * 60
  rs.map fun r =>
    if r.wallet_id = wallet_id ∧ r.followed_by_buy = none ∧ cutoff ≤ r.detected_at then
      { r with followed_by_buy := some true
             , time_to_buy_minutes := some ((now - r.detected_at) / 60)
             , buy_tx_hash := some buy.tx_hash
             , resolved_at := some now }
    else r

/-- `PredictiveEngine.resolve_stale_reloads`: every unresolved reload
detected before the window is marked not-followed-by-buy. -/
def resolve_stale_reloads (now : Nat) (rs : List Reload) : List Reload :=
  let cutoff := now - PREDICTION_WINDOW_MINUTES * 60
  rs.map fun r =>
    if r.followed_by_buy = none ∧ r.detected_at < cutoff then
      { r with followed_by_buy := some false, resolved_at := some now }
    else r

/-- The operations that touch the `reload_events` table. -/
inductive ReloadOp where
  | inflow (now : Nat) (wallet_id : Nat) (tx : ChainTx) (sol_change : Rat)
      (source_address : Option String)
  | buy (now : Nat) (wallet_id : Nat) (tx : ChainTx)
  | sweep (now : Nat)
deriving Repr

/-- Interpretation of one reload-table operation. -/
def applyReloadOp : ReloadOp → List Reload → List Reload
  | .inflow now wid tx amt src, rs => detect_reload now wid tx amt src rs
  | .buy now wid tx, rs => check_reload_resolution now wid tx rs
  | .sweep now, rs => resolve_stale_reloads now rs

/-- Interpretation of a sequence of reload-table operations. -/
def runReloadOps (ops : List ReloadOp) (rs : List Reload) : List Reload :=
  ops.foldl (fun acc op => applyReloadOp op acc) rs

/-- A row of the `transactions` table as read by the analysis engines,
joined with the owning wallet's name and reputation tier. -/
structure TxRow where
  id : Nat
  wallet_id : Nat
  wallet_name : String
  reputation_tier : Option String
  tx_type : String
  token_symbol : Option String
  amount : Rat
  timestamp : Nat
deriving Repr, DecidableEq

/-- A row of the `funding_links` table: an edge of the funding graph.  Only
the source address and destination wallet are read by confidence scoring. -/
structure FundingLink where
  source_address : String
  dest_wallet_id : Nat
deriving Repr, DecidableEq

/-- The cabal trailing window (`CABAL_TIME_WINDOW_MINUTES = 30`). -/
def CABAL_TIME_WINDOW_MINUTES : Nat := 30

/-- Minimum cluster size including the trigger (`MIN_CLUSTER_SIZE = 2`). -/
def MIN_CLUSTER_SIZE : Nat := 2

/-- The `other_buyers` query of `CabalDetector.detect_cluster_buy`: BUY or
SWAP rows on the same symbol inside the trailing window, by wallets other
than the trigger.  The source orders the result by timestamp descending;
that permutes rows but the facts proved below (lengths, membership,
multiset of wallet ids) are order-insensitive. -/
def other_buyers (now wallet_id : Nat) (token_symbol : String) (txs : List TxRow) :
    List TxRow :=
  txs.filter fun t =>
    (t.tx_type == "BUY" || t.tx_type == "SWAP")
    && (t.token_symbol == some token_symbol)
    && decide (now - CABAL_TIME_WINDOW_MINUTES * 60 ≤ t.timestamp)
    && (t.wallet_id != wallet_id)

/-- The funding sources recorded for a wallet (the `my_sources` and
`other_sources` queries of `_calculate_cluster_confidence`). -/
def wallet_funding_sources (links : List FundingLink) (wid : Nat) : List String :=
  (links.filter fun l => l.dest_wallet_id == wid).map fun l => l.source_address

/-- Whether two wallets share at least one funding source (the
`my_sources & other_sources` overlap test). -/
def shares_funding_source (links : List FundingLink) (wid oid : Nat) : Bool :=
  (wallet_funding_sources links wid).any fun s =>
    (wallet_funding_sources links oid).contains s

/-- Python's two-argument `min` on rationals, spelled out so that it
computes by kernel reduction. -/
def rat_min (a b : Rat) : Rat := if a ≤ b then a else b

/-- `CabalDetector._calculate_cluster_confidence`: 50 when there are no
other wallet ids or the trigger has no recorded funding sources, otherwise
base 50 plus 15 per entry of `other_wallet_ids` sharing a source, capped
at 100.  Note the entries come one per transaction row, not one per
distinct wallet. -/
def calculate_cluster_confidence (links : List FundingLink) (wallet_id : Nat)
    (other_wallet_ids : List Nat) : Rat :=
  if other_wallet_ids = [] then 50
  else if wallet_funding_sources links wallet_id = [] then 50
  else
    rat_min 100 (mkRat (50 + 15 *
      (((other_wallet_ids.filter (shares_funding_source links wallet_id)).length : Int))) 1)

/-- The result dictionary of `CabalDetector.detect_cluster_buy`, together
with the severity of the CABAL Moment it stores. -/
structure ClusterResult where
  token : String
  cluster_size : Nat
  wallets : List String
  confidence : Rat
  severity : Nat
deriving Repr, DecidableEq

/-- `CabalDetector.detect_cluster_buy`: falsy or stable symbols are skipped
entirely; otherwise, when at least `MIN_CLUSTER_SIZE - 1` other-wallet
BUY/SWAP rows exist in the window, a result is emitted whose cluster size
is the row count plus one and which stores a severity-10 CABAL Moment. -/
def detect_cluster_buy (now wallet_id : Nat) (wallet_name : String)
    (token_symbol : Option String) (txs : List TxRow) (links : List FundingLink) :
    Option ClusterResult :=
  match token_symbol with
  | none => none
  | some sym =>
    if sym = "" ∨ sym ∈ ["SOL", "USDC", "USDT"] then none
    else
      let ob := other_buyers now wallet_id sym txs
      if MIN_CLUSTER_SIZE - 1 ≤ ob.length then
        some { token := sym
             , cluster_size := ob.length + 1
             , wallets := wallet_name :: (ob.take 5).map (fun t => t.wallet_name)
             , confidence := calculate_cluster_confidence links wallet_id
                 (ob.map fun t => t.wallet_id)
             , severity := 10 }
      else none

/-- A row of the `moments` table, restricted to the fields the emission
sites write apart from the free-text description. -/
structure Moment where
  wallet_id : Nat
  tx_hash : Option String
  moment_type : String
  severity : Nat
  detected_at : Nat
deriving Repr, DecidableEq

/-- `PatternEngine._register_moment`: appends the Moment, with no check
against previously stored Moments. -/
def register_moment (moments : List Moment) (m : Moment) : List Moment :=
  moments ++ [m]

/-- The CABAL Moment write of `detect_cluster_buy` threaded over the
moments table: on emission a severity-10 CABAL Moment is appended, with no
check against previously stored Moments. -/
def detect_cluster_buy_moments (now wallet_id : Nat) (wallet_name : String)
    (token_symbol : Option String) (txs : List TxRow) (links : List FundingLink)
    (moments : List Moment) : List Moment :=
  match detect_cluster_buy now wallet_id wallet_name token_symbol txs links with
  | some _ => moments ++ [⟨wallet_id, none, "CABAL", 10, now⟩]
  | none => moments

/-- The contrarian lookback window (`CONTRARIAN_WINDOW_MINUTES = 60`). -/
def CONTRARIAN_WINDOW_MINUTES : Nat := 60

/-- Tier-C buyers needed for a warning (`MIN_TIER_C_BUYERS = 2`). -/
def MIN_TIER_C_BUYERS : Nat := 2

/-- A signal dictionary of `ContrarianEngine.analyze_token_activity`
(type, severity and token fields; the message is free text). -/
structure Signal where
  stype : String
  severity : String
  token : String
deriving Repr, DecidableEq

/-- The activity query of `analyze_token_activity`: BUY, SWAP or SELL rows
on the symbol inside the trailing 60-minute window. -/
def token_activity (now : Nat) (sym : String) (txs : List TxRow) : List TxRow :=
  txs.filter fun t =>
    (t.token_symbol == some sym)
    && decide (now - CONTRARIAN_WINDOW_MINUTES * 60 ≤ t.timestamp)
    && (t.tx_type == "BUY" || t.tx_type == "SWAP" || t.tx_type == "SELL")

/-- The `tier = tier or U` defaulting of `analyze_token_activity`: a null
or empty reputation tier is treated as unrated. -/
def tier_of (t : TxRow) : String :=
  match t.reputation_tier with
  | none => "U"
  | some s => if s = "" then "U" else s

/-- The `tier_buys` bucket of `analyze_token_activity` for one tier:
BUY and SWAP rows count as buys. -/
def tier_buys (tier : String) (activity : List TxRow) : List TxRow :=
  activity.filter fun t => (tier_of t == tier) && (t.tx_type == "BUY" || t.tx_type == "SWAP")

/-- The `tier_sells` bucket of `analyze_token_activity` for one tier. -/
def tier_sells (tier : String) (activity : List TxRow) : List TxRow :=
  activity.filter fun t => (tier_of t == tier) && (t.tx_type == "SELL")

/-- `ContrarianEngine.analyze_token_activity`: skips falsy or stable
symbols, returns none on empty window activity, otherwise emits the
SCAMMER_ACCUMULATION, SMART_MONEY_EXIT and SCAMMER_ONLY signals per their
conditions, or none when no signal fires. -/
def analyze_token_activity (now : Nat) (token_symbol : Option String) (txs : List TxRow) :
    Option (List Signal) :=
  match token_symbol with
  | none => none
  | some sym =>
    if sym = "" ∨ sym ∈ ["SOL", "USDC", "USDT"] then none
    else
      let activity := token_activity now sym txs
      if activity = [] then none
      else
        let s1 : List Signal :=
          if MIN_TIER_C_BUYERS ≤ (tier_buys "C" activity).length then
            [⟨"SCAMMER_ACCUMULATION", "HIGH", sym⟩]
          else []
        let s2 : List Signal :=
          if tier_sells "A" activity ≠ [] ∧ tier_buys "C" activity ≠ [] then
            [⟨"SMART_MONEY_EXIT", "CRITICAL", sym⟩]
          else []
        let s3 : List Signal :=
          if tier_buys "C" activity ≠ [] ∧ tier_buys "A" activity = []
              ∧ tier_sells "A" activity = [] then
            [⟨"SCAMMER_ONLY", "MEDIUM", sym⟩]
          else []
        let signals := s1 ++ s2 ++ s3
        if signals = [] then none else some signals

/-- `ContrarianEngine.check_for_contrarian_on_buy`: stores one
CONTRARIAN-prefixed Moment per returned signal (severity 10 for CRITICAL,
7 otherwise), with no check against previously stored Moments. -/
def check_for_contrarian_on_buy (now wallet_id : Nat) (token_symbol : Option String)
    (txs : List TxRow) (moments : List Moment) : List Moment :=
  match analyze_token_activity now token_symbol txs with
  | some sigs => moments ++ sigs.map fun s =>
      ⟨wallet_id, none, "CONTRARIAN_" ++ s.stype,
        if s.severity = "CRITICAL" then 10 else 7, now⟩
  | none => moments

/-- The copier window (`COPY_WINDOW_SECONDS = 300`). -/
def COPY_WINDOW_SECONDS : Nat := 300

/-- The copier query of `AlphaDecayTracker.track_copiers_for_trade`:
SWAP rows with positive amount on the same symbol by other wallets inside
the five minutes after the lead buy. -/
def copier_rows (lead_wallet_id : Nat) (sym : String) (buy_timestamp : Nat)
    (txs : List TxRow) : List TxRow :=
  txs.filter fun t =>
    (t.tx_type == "SWAP")
    && (t.token_symbol == some sym)
    && decide (buy_timestamp ≤ t.timestamp)
    && decide (t.timestamp ≤ buy_timestamp + COPY_WINDOW_SECONDS)
    && (t.wallet_id != lead_wallet_id)
    && decide (0 < t.amount)

/-- `AlphaDecayTracker.track_copiers_for_trade`: 0 for falsy or stable
symbols, otherwise `count(distinct Transaction.id)` over the copier query —
distinct transaction ids, not distinct wallets. -/
def track_copiers_for_trade (lead_wallet_id : Nat) (token_symbol : Option String)
    (buy_timestamp : Nat) (txs : List TxRow) : Nat :=
  match token_symbol with
  | none => 0
  | some sym =>
    if sym = "" ∨ sym ∈ ["SOL", "USDC", "USDT"] then 0
    else ((copier_rows lead_wallet_id sym buy_timestamp txs).map fun t => t.id).dedup.length

/-- Two transactions of the same other wallet (wallet 2) buying PEPE inside
the relevant windows, with distinct transaction ids. -/
def cabalDupTxs : List TxRow :=
  [⟨21, 2, "w2", none, "SWAP", some "PEPE", 4, 9000⟩,
   ⟨22, 2, "w2", none, "BUY", some "PEPE", 6, 9500⟩]

/-- Funding links giving wallets 1 and 2 the common source S. -/
def cabalLinks : List FundingLink := [⟨"S", 1⟩, ⟨"S", 2⟩]

/-- One tier-A SELL and two tier-C BUYs on WIF by three distinct wallets,
all inside the 60-minute window before second 4000. -/
def contrarianTxs : List TxRow :=
  [⟨31, 10, "alpha", some "A", "SELL", some "WIF", 100, 3800⟩,
   ⟨32, 11, "scam1", some "C", "BUY", some "WIF", 5, 3900⟩,
   ⟨33, 12, "scam2", some "C", "BUY", some "WIF", 6, 3950⟩]

/-- Two SWAP transactions of the same other wallet (wallet 2) on PEPE
within five minutes after the lead buy at second 1000. -/
def copierDupTxs : List TxRow :=
  [⟨41, 2, "w2", none, "SWAP", some "PEPE", 5, 1100⟩,
   ⟨42, 2, "w2", none, "SWAP", some "PEPE", 3, 1200⟩]

/-- A transaction gaining two non-stable assets (AAA then BBB, BBB larger)
while losing one non-stable asset (CCC), with no SOL movement. -/
def multiGainExample : List TokenChange :=
  [⟨"AAA", "mintA", 2⟩, ⟨"BBB", "mintB", 5⟩, ⟨"CCC", "mintC", -3⟩]

/-- C1 counterexample: on a transaction that loses non-stable CCC and gains
non-stable AAA (amount 2) then BBB (amount 5), the classifier reports the
SWAP with primary asset AAA — the first-encountered gained non-stable —
although the gained non-stable with the largest absolute amount is BBB.
So the claim that the largest-amount asset is selected fails on the code. -/
theorem swap_primary_not_largest_counterexample :
    classify 0 multiGainExample = ⟨"SWAP", 2, some "AAA", some "mintA"⟩ ∧
    largest_abs_asset (gained_tokens multiGainExample) = some ("BBB", "mintB", 5) ∧
    ("AAA" : String) ≠ "BBB" := by decide

/-- C1 (amended): when the monitored address both loses and gains
non-stable assets above dust, the classifier selects as primary the
first-encountered non-stable asset of the relevant side in
post-token-balance iteration order — the head of `lost_tokens` for the
SELL branch and the head of `gained_tokens` for the BUY and token-to-token
SWAP branches — not the asset with the largest absolute amount. -/
theorem classify_multi_asset_primary_is_first (sol_diff : Rat) (cs : List TokenChange)
    (a b : String × String × Rat) (la lb : List (String × String × Rat))
    (hL : lost_tokens cs = a :: la) (hG : gained_tokens cs = b :: lb) :
    (gained_stables cs ≠ [] ∨ SOL_DUST < sol_diff →
      classify sol_diff cs = ⟨"SELL", a.2.2, some a.1, some a.2.1⟩)
    ∧ (gained_stables cs = [] → ¬ SOL_DUST < sol_diff →
        lost_stables cs ≠ [] ∨ sol_diff < -SOL_DUST →
        classify sol_diff cs = ⟨"BUY", b.2.2, some b.1, some b.2.1⟩)
    ∧ (gained_stables cs = [] → ¬ SOL_DUST < sol_diff → lost_stables cs = [] →
        ¬ sol_diff < -SOL_DUST →
        classify sol_diff cs = ⟨"SWAP", b.2.2, some b.1, some b.2.1⟩) := by
  have hTL : tokens_lost cs ≠ [] := by
    intro h
    rw [lost_tokens, h] at hL
    simp at hL
  have hTG : tokens_gained cs ≠ [] := by
    intro h
    rw [gained_tokens, h] at hG
    simp at hG
  have hLne : lost_tokens cs ≠ [] := by rw [hL]; simp
  have hGne : gained_tokens cs ≠ [] := by rw [hG]; simp
  refine ⟨fun hc => ?_, fun h1 h2 h3 => ?_, fun h1 h2 h3 h4 => ?_⟩
  · simp only [classify]
    rw [if_pos ⟨hTL, hTG⟩, if_pos ⟨hLne, hc⟩]
    simp [hL]
  · have hneg1 : ¬(lost_tokens cs ≠ [] ∧ (gained_stables cs ≠ [] ∨ SOL_DUST < sol_diff)) :=
      fun hx => hx.2.elim (fun h => h h1) (fun h => h2 h)
    simp only [classify]
    rw [if_pos ⟨hTL, hTG⟩, if_neg hneg1, if_pos ⟨hGne, h3⟩]
    simp [hG]
  · have hneg1 : ¬(lost_tokens cs ≠ [] ∧ (gained_stables cs ≠ [] ∨ SOL_DUST < sol_diff)) :=
      fun hx => hx.2.elim (fun h => h h1) (fun h => h2 h)
    have hneg2 : ¬(gained_tokens cs ≠ [] ∧ (lost_stables cs ≠ [] ∨ sol_diff < -SOL_DUST)) :=
      fun hx => hx.2.elim (fun h => h h3) (fun h => h4 h)
    simp only [classify]
    rw [if_pos ⟨hTL, hTG⟩, if_neg hneg1, if_neg hneg2, if_pos ⟨hLne, hGne⟩]
    simp [hG]

/-- C1 witness: the amended first-encountered rule applied at the concrete
multi-gain transaction, discharging every hypothesis there. -/
theorem classify_multi_asset_primary_is_first_witness :
    classify 0 multiGainExample = ⟨"SWAP", 2, some "AAA", some "mintA"⟩ :=
  (classify_multi_asset_primary_is_first 0 multiGainExample
      ("CCC", "mintC", 3) ("AAA", "mintA", 2) [] [("BBB", "mintB", 5)]
      (by decide) (by decide)).2.2 (by decide) (by decide) (by decide) (by decide)

/-- C2: the pure-buy branch of `check_wallet` assigns the type BUY before
checking that any non-stable asset was gained, so a transaction that loses
1 SOL (above dust) and gains only the stable token USDC is stored as a BUY
(with the symbol and amount left over from the SOL-transfer default),
contradicting the spec's stable-asset exclusion at this concrete input. -/
theorem stable_only_gain_classified_as_buy :
    classify (-1) [⟨"USDC", "EPjFWdd5AufqSSqeM2qN1xzybap", 100⟩] =
      ⟨"BUY", 1, some "SOL", none⟩ := by decide

example : classify (-1) [⟨"X", "mX", 500⟩] = ⟨"BUY", 500, some "X", some "mX"⟩ := by decide
example : classify (mkRat 98 100) [⟨"X", "mX", -500⟩] = ⟨"SELL", 500, some "X", some "mX"⟩ := by
  decide
example : classify 0 [⟨"X", "mX", -500⟩, ⟨"Y", "mY", 300⟩] =
    ⟨"SWAP", 300, some "Y", some "mY"⟩ := by decide

/-- Helper: a list element at a valid index, through the optional getter. -/
theorem getElem_opt_of_lt {α : Type} (l : List α) (i : Nat) (h : i < l.length) :
    l[i]? = some (l.get ⟨i, h⟩) := by
  simp [List.getElem?_eq_getElem, List.get_eq_getElem]

/-- Helper: a single reload-table operation leaves every already-resolved
record in place and unchanged. -/
theorem applyReloadOp_keeps_resolved (op : ReloadOp) (rs : List Reload) (i : Nat)
    (hi : i < rs.length) (hres : (rs.get ⟨i, hi⟩).followed_by_buy ≠ none) :
    (applyReloadOp op rs)[i]? = some (rs.get ⟨i, hi⟩) := by
  cases op with
  | inflow now wid tx amt src =>
    show (detect_reload now wid tx amt src rs)[i]? = _
    unfold detect_reload
    by_cases h1 : amt < MIN_RELOAD_SOL
    · rw [if_pos h1]
      exact getElem_opt_of_lt rs i hi
    · rw [if_neg h1]
      by_cases h2 : rs.any (fun r => r.tx_hash == tx.tx_hash) = true
      · rw [if_pos h2]
        exact getElem_opt_of_lt rs i hi
      · rw [if_neg h2, List.getElem?_append_left hi]
        exact getElem_opt_of_lt rs i hi
  | buy now wid tx =>
    show (check_reload_resolution now wid tx rs)[i]? = _
    simp only [check_reload_resolution]
    rw [List.getElem?_map, getElem_opt_of_lt rs i hi, Option.map_some']
    rw [if_neg (fun hc => hres hc.2.1)]
  | sweep now =>
    show (resolve_stale_reloads now rs)[i]? = _
    simp only [resolve_stale_reloads]
    rw [List.getElem?_map, getElem_opt_of_lt rs i hi, Option.map_some']
    rw [if_neg (fun hc => hres hc.1)]

/-- C4: once a ReloadEvent carries a resolution (followed-by-buy true or
false), any further sequence of inflow, buy-resolution and stale-sweep
invocations leaves that record in place and entirely unchanged — including
its resolution flag, recorded minutes-to-buy and linked buy hash — so at
most one of the two resolution states is ever reached. -/
theorem reload_resolution_exactly_once (ops : List ReloadOp) (rs : List Reload) (i : Nat)
    (hi : i < rs.length) (hres : (rs.get ⟨i, hi⟩).followed_by_buy ≠ none) :
    (runReloadOps ops rs)[i]? = some (rs.get ⟨i, hi⟩) := by
  induction ops generalizing rs with
  | nil => exact getElem_opt_of_lt rs i hi
  | cons op rest ih =>
    have h1 := applyReloadOp_keeps_resolved op rs i hi hres
    obtain ⟨hlt, hget⟩ := List.getElem?_eq_some.1 h1
    have hres2 : ((applyReloadOp op rs).get ⟨i, hlt⟩).followed_by_buy ≠ none := by
      rw [List.get_eq_getElem, hget]
      exact hres
    have h2 := ih (applyReloadOp op rs) hlt hres2
    have h3 : runReloadOps (op :: rest) rs = runReloadOps rest (applyReloadOp op rs) := rfl
    rw [h3, h2, List.get_eq_getElem, hget]

/-- C4 witness: a concrete resolved reload survives an inflow, a buy and a
sweep unchanged. -/
theorem reload_resolution_exactly_once_witness :
    (runReloadOps
        [ReloadOp.inflow 9000 1 ⟨"t2", 8999⟩ 10 none,
         ReloadOp.buy 9100 1 ⟨"t3", 9050⟩,
         ReloadOp.sweep 20000]
        [⟨1, "t1", 10, none, 1000, some true, some 5, some "b1", some 1300⟩])[0]?
      = some ⟨1, "t1", 10, none, 1000, some true, some 5, some "b1", some 1300⟩ :=
  reload_resolution_exactly_once
    [ReloadOp.inflow 9000 1 ⟨"t2", 8999⟩ 10 none,
     ReloadOp.buy 9100 1 ⟨"t3", 9050⟩,
     ReloadOp.sweep 20000]
    [⟨1, "t1", 10, none, 1000, some true, some 5, some "b1", some 1300⟩]
    0 (by decide) (by decide)

/-- C10: when a buy resolves a reload, the recorded minutes-to-buy is the
whole-minute floor of the processing-clock span from reload detection to
the resolving call; both `check_reload_resolution` and `detect_reload`
ignore the transactions' on-chain block times entirely, so only the
processing times determine the recorded value. -/
theorem time_to_buy_uses_processing_clock (now wallet_id : Nat) (buy : ChainTx)
    (rs : List Reload) (r : Reload) (hmem : r ∈ rs) (hw : r.wallet_id = wallet_id)
    (hopen : r.followed_by_buy = none)
    (hwin : now - PREDICTION_WINDOW_MINUTES * 60 ≤ r.detected_at) :
    ({ r with followed_by_buy := some true
            , time_to_buy_minutes := some ((now - r.detected_at) / 60)
            , buy_tx_hash := some buy.tx_hash
            , resolved_at := some now } ∈ check_reload_resolution now wallet_id buy rs)
    ∧ (∀ t : Nat, check_reload_resolution now wallet_id ⟨buy.tx_hash, t⟩ rs
        = check_reload_resolution now wallet_id buy rs)
    ∧ (∀ t amt src rs2, detect_reload now wallet_id ⟨buy.tx_hash, t⟩ amt src rs2
        = detect_reload now wallet_id ⟨buy.tx_hash, 0⟩ amt src rs2) := by
  refine ⟨?_, fun t => rfl, fun t amt src rs2 => rfl⟩
  simp only [check_reload_resolution]
  rw [List.mem_map]
  exact ⟨r, hmem, by rw [if_pos ⟨hw, hopen, hwin⟩]⟩

/-- C10 witness: a reload detected at processing second 1000 and resolved
by a call running at processing second 8000 records 116 whole minutes. -/
theorem time_to_buy_uses_processing_clock_witness :
    ({ wallet_id := 1, tx_hash := "t1", amount := 10, source_address := none
     , detected_at := 1000, followed_by_buy := some true
     , time_to_buy_minutes := some ((8000 - 1000) / 60)
     , buy_tx_hash := some "b9", resolved_at := some 8000 : Reload }
      ∈ check_reload_resolution 8000 1 ⟨"b9", 777⟩
        [⟨1, "t1", 10, none, 1000, none, none, none, none⟩])
    ∧ (∀ t : Nat, check_reload_resolution 8000 1 ⟨"b9", t⟩
        [⟨1, "t1", 10, none, 1000, none, none, none, none⟩]
        = check_reload_resolution 8000 1 ⟨"b9", 777⟩
            [⟨1, "t1", 10, none, 1000, none, none, none, none⟩])
    ∧ (∀ t amt src rs2, detect_reload 8000 1 ⟨"b9", t⟩ amt src rs2
        = detect_reload 8000 1 ⟨"b9", 0⟩ amt src rs2) :=
  time_to_buy_uses_processing_clock 8000 1 ⟨"b9", 777⟩
    [⟨1, "t1", 10, none, 1000, none, none, none, none⟩]
    ⟨1, "t1", 10, none, 1000, none, none, none, none⟩
    (by decide) (by decide) (by decide) (by decide)

/-- C3: if the store already holds exactly one event for a transaction
hash, re-ingesting a raw transaction with that hash any number of times is
a no-op: still exactly one stored event for the hash, and no additional
profile update or detector invocation happens. -/
theorem ingest_same_hash_idempotent (wallet_id : Nat) (s : IngestState) (tx : RawTx)
    (n : Nat) (h : hash_count s tx.tx_hash = 1) :
    hash_count (process_sig_iter wallet_id tx n s) tx.tx_hash = 1
    ∧ (process_sig_iter wallet_id tx n s).profile_updates = s.profile_updates
    ∧ (process_sig_iter wallet_id tx n s).detector_calls = s.detector_calls := by
  have hx : s.events.any (fun e => e.tx_hash == tx.tx_hash) = true := by
    have hlen : 0 < (s.events.filter (fun e => e.tx_hash == tx.tx_hash)).length := by
      unfold hash_count at h
      omega
    obtain ⟨e, he⟩ := List.exists_mem_of_length_pos hlen
    have hm := List.mem_filter.1 he
    exact List.any_eq_true.2 ⟨e, hm.1, hm.2⟩
  have hskip : process_sig wallet_id s tx = s := by
    simp [process_sig, hx]
  have hiter : ∀ m, process_sig_iter wallet_id tx m s = s := by
    intro m
    induction m with
    | zero => rfl
    | succ k ih => simp [process_sig_iter, hskip, ih]
  rw [hiter n]
  exact ⟨h, rfl, rfl⟩

/-- C3 witness: a store holding one event for hash h1 is untouched by three
re-ingestions of a raw transaction with hash h1. -/
theorem ingest_same_hash_idempotent_witness :
    hash_count (process_sig_iter 7 ⟨"h1", -1, [⟨"X", "mX", 500⟩], 123⟩ 3
        ⟨[⟨7, "h1", "BUY", some "X", 500, 120⟩], 4, 9⟩) "h1" = 1
    ∧ (process_sig_iter 7 ⟨"h1", -1, [⟨"X", "mX", 500⟩], 123⟩ 3
        ⟨[⟨7, "h1", "BUY", some "X", 500, 120⟩], 4, 9⟩).profile_updates = 4
    ∧ (process_sig_iter 7 ⟨"h1", -1, [⟨"X", "mX", 500⟩], 123⟩ 3
        ⟨[⟨7, "h1", "BUY", some "X", 500, 120⟩], 4, 9⟩).detector_calls = 9 :=
  ingest_same_hash_idempotent 7 ⟨[⟨7, "h1", "BUY", some "X", 500, 120⟩], 4, 9⟩
    ⟨"h1", -1, [⟨"X", "mX", 500⟩], 123⟩ 3 (by decide)

/-- C5 counterexample: with two qualifying transactions of the single other
wallet 2, the emitted cluster size is 3, while the number of distinct
participating addresses including the trigger is 2 — the reported size
counts transaction rows, not distinct addresses. -/
theorem cluster_size_counts_rows_counterexample :
    (detect_cluster_buy 10000 1 "w1" (some "PEPE") cabalDupTxs []).map
        (fun r => r.cluster_size) = some 3
    ∧ ((1 :: ((other_buyers 10000 1 "PEPE" cabalDupTxs).map fun t => t.wallet_id)).dedup).length = 2
    ∧ (3 : Nat) ≠ 2 := by decide

/-- C5 (amended): `detect_cluster_buy` emits (always with severity 10) if
and only if the symbol is truthy, not a recognized stable, and at least one
BUY or SWAP transaction by another wallet exists on it within the trailing
30-minute window; the reported cluster size is the number of such
transaction rows plus one for the trigger (a wallet with several
transactions counted once per transaction), hence at least 2 on emission. -/
theorem detect_cluster_buy_emission_spec (now wallet_id : Nat) (wallet_name : String)
    (sym : String) (txs : List TxRow) (links : List FundingLink) :
    ((detect_cluster_buy now wallet_id wallet_name (some sym) txs links).isSome
      ↔ (sym ≠ "" ∧ sym ∉ ["SOL", "USDC", "USDT"]
          ∧ 1 ≤ (other_buyers now wallet_id sym txs).length))
    ∧ (∀ res, detect_cluster_buy now wallet_id wallet_name (some sym) txs links = some res →
        res.severity = 10
        ∧ res.cluster_size = (other_buyers now wallet_id sym txs).length + 1
        ∧ 2 ≤ res.cluster_size) := by
  by_cases hst : sym = "" ∨ sym ∈ ["SOL", "USDC", "USDT"]
  · refine ⟨?_, ?_⟩
    · simp only [detect_cluster_buy, if_pos hst]
      constructor
      · intro h
        simp at h
      · rintro ⟨h1, h2, -⟩
        rcases hst with h | h
        · exact absurd h h1
        · exact absurd h h2
    · intro res h
      simp only [detect_cluster_buy, if_pos hst] at h
      exact absurd h (by simp)
  · have hne : sym ≠ "" := fun h => hst (Or.inl h)
    have hnm : sym ∉ ["SOL", "USDC", "USDT"] := fun h => hst (Or.inr h)
    by_cases hlen : MIN_CLUSTER_SIZE - 1 ≤ (other_buyers now wallet_id sym txs).length
    · refine ⟨?_, ?_⟩
      · simp only [detect_cluster_buy, if_neg hst, if_pos hlen, Option.isSome_some]
        exact ⟨fun _ => ⟨hne, hnm, by simpa [MIN_CLUSTER_SIZE] using hlen⟩, fun _ => trivial⟩
      · intro res h
        simp only [detect_cluster_buy, if_neg hst, if_pos hlen, Option.some.injEq] at h
        have h1 : 1 ≤ (other_buyers now wallet_id sym txs).length := by
          simpa [MIN_CLUSTER_SIZE] using hlen
        refine ⟨?_, ?_, ?_⟩
        · rw [← h]
        · rw [← h]
        · rw [← h]
          show 2 ≤ (other_buyers now wallet_id sym txs).length + 1
          omega
    · refine ⟨?_, ?_⟩
      · simp only [detect_cluster_buy, if_neg hst, if_neg hlen]
        constructor
        · intro h
          simp at h
        · rintro ⟨-, -, h1⟩
          exact absurd (by simpa [MIN_CLUSTER_SIZE] using h1) hlen
      · intro res h
        simp only [detect_cluster_buy, if_neg hst, if_neg hlen] at h
        exact absurd h (by simp)

/-- C5 witness: with a single other-wallet BUY on WIF, the detector emits,
and the emitted record carries severity 10 and cluster size 2. -/
theorem detect_cluster_buy_emission_spec_witness :
    ((detect_cluster_buy 4000 1 "w1" (some "WIF")
        [⟨5, 2, "w2", none, "BUY", some "WIF", 7, 3500⟩] []).isSome
      ↔ (("WIF" : String) ≠ "" ∧ ("WIF" : String) ∉ ["SOL", "USDC", "USDT"]
          ∧ 1 ≤ (other_buyers 4000 1 "WIF"
              [⟨5, 2, "w2", none, "BUY", some "WIF", 7, 3500⟩]).length))
    ∧ (∀ res, detect_cluster_buy 4000 1 "w1" (some "WIF")
          [⟨5, 2, "w2", none, "BUY", some "WIF", 7, 3500⟩] [] = some res →
        res.severity = 10
        ∧ res.cluster_size = (other_buyers 4000 1 "WIF"
            [⟨5, 2, "w2", none, "BUY", some "WIF", 7, 3500⟩]).length + 1
        ∧ 2 ≤ res.cluster_size) :=
  detect_cluster_buy_emission_spec 4000 1 "w1" "WIF"
    [⟨5, 2, "w2", none, "BUY", some "WIF", 7, 3500⟩] []

/-- C6 counterexample: with the duplicate-row cluster on PEPE and a shared
funding source S between wallets 1 and 2, the emitted confidence is 80 —
the wallet-2 rows each add 15 — while 50 plus 15 per distinct sharing
address capped at 100 would be 65. -/
theorem cluster_confidence_duplicate_rows_counterexample :
    (detect_cluster_buy 10000 1 "w1" (some "PEPE") cabalDupTxs cabalLinks).map
        (fun r => r.confidence) = some 80
    ∧ ((((other_buyers 10000 1 "PEPE" cabalDupTxs).map fun t => t.wallet_id).dedup).filter
        (shares_funding_source cabalLinks 1)).length = 1
    ∧ (80 : Rat) ≠ min 100 (50 + 15 * 1) := by
  refine ⟨by decide, by decide, by norm_num⟩

/-- C6 (amended): the emitted confidence equals
min(100, 50 + 15 * s) where s is the number of other-buyer transaction
rows whose wallet shares at least one funding source with the trigger (one
count per row, not per distinct address); it always lies in the interval
from 50 to 100, and equals exactly 50 when s is zero, in particular when
the trigger has no recorded funding sources at all. -/
theorem cluster_confidence_formula_bounds (links : List FundingLink) (wid : Nat)
    (oids : List Nat) :
    calculate_cluster_confidence links wid oids
      = min 100 (50 + 15 * ((oids.filter (shares_funding_source links wid)).length : Rat))
    ∧ 50 ≤ calculate_cluster_confidence links wid oids
    ∧ calculate_cluster_confidence links wid oids ≤ 100
    ∧ ((oids.filter (shares_funding_source links wid)).length = 0 →
        calculate_cluster_confidence links wid oids = 50)
    ∧ (wallet_funding_sources links wid = [] →
        calculate_cluster_confidence links wid oids = 50) := by
  have hmin : ∀ a b : Rat, rat_min a b = min a b := by
    intro a b
    by_cases h : a ≤ b
    · simp [rat_min, min_def, h]
    · simp [rat_min, min_def, h]
  have hfe : wallet_funding_sources links wid = [] →
      oids.filter (shares_funding_source links wid) = [] := by
    intro h2
    apply List.filter_eq_nil_iff.2
    intro a ha
    simp [shares_funding_source, h2]
  have heq : calculate_cluster_confidence links wid oids
      = min 100 (50 + 15 * ((oids.filter (shares_funding_source links wid)).length : Rat)) := by
    unfold calculate_cluster_confidence
    by_cases h1 : oids = []
    · subst h1
      simp
      norm_num
    · rw [if_neg h1]
      by_cases h2 : wallet_funding_sources links wid = []
      · rw [if_pos h2, hfe h2]
        simp
        norm_num
      · rw [if_neg h2, hmin]
        congr 1
        rw [Rat.mkRat_one]
        push_cast
        ring
  have hle : (0 : Rat) ≤ 15 * ((oids.filter (shares_funding_source links wid)).length : Rat) := by
    positivity
  refine ⟨heq, ?_, ?_, ?_, ?_⟩
  · rw [heq]
    refine le_min (by norm_num) (by linarith)
  · rw [heq]
    exact min_le_left _ _
  · intro h0
    rw [heq, h0]
    norm_num
  · intro hs
    rw [heq, hfe hs]
    norm_num

/-- C6 witness: the formula applied at a concrete cluster with no funding
links yields exactly 50. -/
theorem cluster_confidence_formula_bounds_witness :
    calculate_cluster_confidence [] 0 [3] = 50 :=
  (cluster_confidence_formula_bounds [] 0 [3]).2.2.2.1 (by decide)

/-- C7 counterexample: with two qualifying copy transactions of the single
other wallet 2, the copier count returned is 2, while the number of
distinct other buying addresses is 1 — the count is per distinct
transaction id, not per distinct address. -/
theorem copier_count_counts_transactions_counterexample :
    track_copiers_for_trade 1 (some "PEPE") 1000 copierDupTxs = 2
    ∧ (((copier_rows 1 "PEPE" 1000 copierDupTxs).map fun r => r.wallet_id).dedup).length = 1
    ∧ (2 : Nat) ≠ 1 := by decide

/-- C7 (amended): for a truthy non-stable symbol, the copier count equals
the number of qualifying copy transactions — SWAP-typed rows with positive
amount on the same asset by other addresses within the five-minute window
(transaction ids being unique, the distinct-id count is the row count); it
is an upper bound on the number of distinct copying addresses; and for a
recognized stable symbol the count is 0. -/
theorem track_copiers_spec (lead : Nat) (sym : String) (t : Nat) (txs : List TxRow)
    (hs : sym ∉ ["SOL", "USDC", "USDT"]) (hne : sym ≠ "")
    (hid : (txs.map fun r => r.id).Nodup) :
    track_copiers_for_trade lead (some sym) t txs = (copier_rows lead sym t txs).length
    ∧ (((copier_rows lead sym t txs).map fun r => r.wallet_id).dedup).length
        ≤ track_copiers_for_trade lead (some sym) t txs
    ∧ (∀ s, s ∈ ["SOL", "USDC", "USDT"] →
        track_copiers_for_trade lead (some s) t txs = 0) := by
  have hst : ¬(sym = "" ∨ sym ∈ ["SOL", "USDC", "USDT"]) := by
    rintro (h | h)
    · exact hne h
    · exact hs h
  have hsub : List.Sublist ((copier_rows lead sym t txs).map fun r => r.id)
      (txs.map fun r => r.id) := (List.filter_sublist txs).map _
  have hnd : ((copier_rows lead sym t txs).map fun r => r.id).Nodup := hid.sublist hsub
  have heq : track_copiers_for_trade lead (some sym) t txs
      = (copier_rows lead sym t txs).length := by
    simp only [track_copiers_for_trade, if_neg hst]
    rw [List.dedup_eq_self.2 hnd, List.length_map]
  refine ⟨heq, ?_, ?_⟩
  · rw [heq]
    calc (((copier_rows lead sym t txs).map fun r => r.wallet_id).dedup).length
        ≤ ((copier_rows lead sym t txs).map fun r => r.wallet_id).length :=
          (List.dedup_sublist _).length_le
      _ = (copier_rows lead sym t txs).length := by rw [List.length_map]
  · intro s hsm
    simp only [track_copiers_for_trade]
    rw [if_pos (Or.inr hsm)]

/-- C7 witness: the amended counting rule applied at the concrete
duplicate-copier input, discharging every hypothesis there. -/
theorem track_copiers_spec_witness :
    track_copiers_for_trade 1 (some "PEPE") 1000 copierDupTxs
        = (copier_rows 1 "PEPE" 1000 copierDupTxs).length
    ∧ (((copier_rows 1 "PEPE" 1000 copierDupTxs).map fun r => r.wallet_id).dedup).length
        ≤ track_copiers_for_trade 1 (some "PEPE") 1000 copierDupTxs
    ∧ (∀ s, s ∈ ["SOL", "USDC", "USDT"] →
        track_copiers_for_trade 1 (some s) 1000 copierDupTxs = 0) :=
  track_copiers_spec 1 "PEPE" 1000 copierDupTxs (by decide) (by decide) (by decide)

/-- Helper: a list containing two distinct elements has length at least
two. -/
theorem two_mem_le_length {α : Type} (l : List α) (a b : α) (ha : a ∈ l) (hb : b ∈ l)
    (hab : a ≠ b) : 2 ≤ l.length := by
  cases l with
  | nil => simp at ha
  | cons x xs =>
    rcases List.mem_cons.1 ha with rfl | ha2
    · rcases List.mem_cons.1 hb with hba | hb2
      · exact absurd hba.symm hab
      · have hpos : 0 < xs.length := List.length_pos.2 (List.ne_nil_of_mem hb2)
        simp only [List.length_cons]
        omega
    · have hpos : 0 < xs.length := List.length_pos.2 (List.ne_nil_of_mem ha2)
      simp only [List.length_cons]
      omega

/-- C8: when, inside the 60-minute window on a non-stable asset, some
tier-A address sold it and two distinct tier-C addresses bought it, the
contrarian analysis returns exactly the SCAMMER_ACCUMULATION signal with
severity HIGH and the SMART_MONEY_EXIT signal with severity CRITICAL, and
no SCAMMER_ONLY signal. -/
theorem contrarian_exit_signals (now : Nat) (sym : String) (txs : List TxRow)
    (ra rc1 rc2 : TxRow)
    (hsym : sym ∉ ["SOL", "USDC", "USDT"]) (hne : sym ≠ "")
    (hraMem : ra ∈ token_activity now sym txs) (hraTier : tier_of ra = "A")
    (hraSell : ra.tx_type = "SELL")
    (hc1Mem : rc1 ∈ token_activity now sym txs) (hc1Tier : tier_of rc1 = "C")
    (hc1Buy : rc1.tx_type = "BUY")
    (hc2Mem : rc2 ∈ token_activity now sym txs) (hc2Tier : tier_of rc2 = "C")
    (hc2Buy : rc2.tx_type = "BUY")
    (hdist : rc1.wallet_id ≠ rc2.wallet_id) :
    ∃ sigs, analyze_token_activity now (some sym) txs = some sigs
      ∧ (⟨"SCAMMER_ACCUMULATION", "HIGH", sym⟩ : Signal) ∈ sigs
      ∧ (⟨"SMART_MONEY_EXIT", "CRITICAL", sym⟩ : Signal) ∈ sigs
      ∧ ∀ s ∈ sigs, s.stype ≠ "SCAMMER_ONLY" := by
  have hst : ¬(sym = "" ∨ sym ∈ ["SOL", "USDC", "USDT"]) := by
    rintro (h | h)
    · exact hne h
    · exact hsym h
  have hAne : token_activity now sym txs ≠ [] := List.ne_nil_of_mem hraMem
  have hcb1 : rc1 ∈ tier_buys "C" (token_activity now sym txs) :=
    List.mem_filter.2 ⟨hc1Mem, by simp [hc1Tier, hc1Buy]⟩
  have hcb2 : rc2 ∈ tier_buys "C" (token_activity now sym txs) :=
    List.mem_filter.2 ⟨hc2Mem, by simp [hc2Tier, hc2Buy]⟩
  have hne12 : rc1 ≠ rc2 := fun h => hdist (congrArg TxRow.wallet_id h)
  have hClen : MIN_TIER_C_BUYERS ≤ (tier_buys "C" (token_activity now sym txs)).length :=
    two_mem_le_length _ rc1 rc2 hcb1 hcb2 hne12
  have hasMem : ra ∈ tier_sells "A" (token_activity now sym txs) :=
    List.mem_filter.2 ⟨hraMem, by simp [hraTier, hraSell]⟩
  have hASne : tier_sells "A" (token_activity now sym txs) ≠ [] :=
    List.ne_nil_of_mem hasMem
  have hCne : tier_buys "C" (token_activity now sym txs) ≠ [] :=
    List.ne_nil_of_mem hcb1
  have hneg3 : ¬(tier_buys "C" (token_activity now sym txs) ≠ []
      ∧ tier_buys "A" (token_activity now sym txs) = []
      ∧ tier_sells "A" (token_activity now sym txs) = []) :=
    fun hc => hASne hc.2.2
  refine ⟨[⟨"SCAMMER_ACCUMULATION", "HIGH", sym⟩, ⟨"SMART_MONEY_EXIT", "CRITICAL", sym⟩],
    ?_, ?_, ?_, ?_⟩
  · simp only [analyze_token_activity, if_neg hst, if_neg hAne, if_pos hClen,
      if_pos (And.intro hASne hCne), if_neg hneg3]
    simp
  · simp
  · simp
  · intro s hs
    rcases List.mem_cons.1 hs with rfl | hs2
    · show ("SCAMMER_ACCUMULATION" : String) ≠ "SCAMMER_ONLY"
      decide
    · rcases List.mem_cons.1 hs2 with rfl | hs3
      · show ("SMART_MONEY_EXIT" : String) ≠ "SCAMMER_ONLY"
        decide
      · simp at hs3

/-- C8 witness: the contrarian exit scenario at a concrete window — one
tier-A SELL and two distinct tier-C BUYs on WIF. -/
theorem contrarian_exit_signals_witness :
    ∃ sigs, analyze_token_activity 4000 (some "WIF") contrarianTxs = some sigs
      ∧ (⟨"SCAMMER_ACCUMULATION", "HIGH", "WIF"⟩ : Signal) ∈ sigs
      ∧ (⟨"SMART_MONEY_EXIT", "CRITICAL", "WIF"⟩ : Signal) ∈ sigs
      ∧ ∀ s ∈ sigs, s.stype ≠ "SCAMMER_ONLY" :=
  contrarian_exit_signals 4000 "WIF" contrarianTxs
    ⟨31, 10, "alpha", some "A", "SELL", some "WIF", 100, 3800⟩
    ⟨32, 11, "scam1", some "C", "BUY", some "WIF", 5, 3900⟩
    ⟨33, 12, "scam2", some "C", "BUY", some "WIF", 6, 3950⟩
    (by decide) (by decide) (by decide) (by decide) (by decide) (by decide)
    (by decide) (by decide) (by decide) (by decide) (by decide) (by decide)

/-- C9 counterexample: running the cabal detection twice over the same
state appends two Moments with the identical (address, kind, asset) key
and the identical detection time, so the sink holds two such Moments
inside any deduplication window — no emission-time deduplication exists. -/
theorem moment_duplicate_emission_counterexample :
    detect_cluster_buy_moments 10000 1 "w1" (some "PEPE") cabalDupTxs []
        (detect_cluster_buy_moments 10000 1 "w1" (some "PEPE") cabalDupTxs [] [])
      = [⟨1, none, "CABAL", 10, 10000⟩, ⟨1, none, "CABAL", 10, 10000⟩] := by decide

/-- C9 (amended): Moment emission performs no deduplication: every
qualifying detection appends unconditionally, so repeated cabal detection
adds one CABAL Moment each time, `_register_moment` always appends, and
the contrarian path appends one Moment per returned signal, regardless of
what the sink already contains. -/
theorem moment_emission_no_dedup (now wallet_id : Nat) (wallet_name : String)
    (token_symbol : Option String) (txs : List TxRow) (links : List FundingLink)
    (moments : List Moment)
    (h : (detect_cluster_buy now wallet_id wallet_name token_symbol txs links).isSome) :
    (detect_cluster_buy_moments now wallet_id wallet_name token_symbol txs links
        (detect_cluster_buy_moments now wallet_id wallet_name token_symbol txs links
          moments)).length = moments.length + 2
    ∧ (∀ m, register_moment moments m = moments ++ [m])
    ∧ (∀ sigs, analyze_token_activity now token_symbol txs = some sigs →
        (check_for_contrarian_on_buy now wallet_id token_symbol txs moments).length
          = moments.length + sigs.length) := by
  obtain ⟨res, hres⟩ := Option.isSome_iff_exists.1 h
  refine ⟨?_, fun m => rfl, ?_⟩
  · simp only [detect_cluster_buy_moments, hres]
    simp [List.length_append]
  · intro sigs hsigs
    simp only [check_for_contrarian_on_buy, hsigs]
    simp [List.length_append]

/-- C9 witness: the no-deduplication behaviour at the concrete PEPE
cluster over an empty sink. -/
theorem moment_emission_no_dedup_witness :
    (detect_cluster_buy_moments 10000 1 "w1" (some "PEPE") cabalDupTxs []
        (detect_cluster_buy_moments 10000 1 "w1" (some "PEPE") cabalDupTxs []
          [])).length = List.length ([] : List Moment) + 2
    ∧ (∀ m, register_moment [] m = [] ++ [m])
    ∧ (∀ sigs, analyze_token_activity 10000 (some "PEPE") cabalDupTxs = some sigs →
        (check_for_contrarian_on_buy 10000 1 (some "PEPE") cabalDupTxs [] ).length
          = List.length ([] : List Moment) + sigs.length) :=
  moment_emission_no_dedup 10000 1 "w1" (some "PEPE") cabalDupTxs [] [] (by decide)
